import Mathlib

/-!
# Shallow embedding of the shopify-insights sync and analytics core

This file embeds the tenant data-synchronization pipeline and the
analytics-derivation routes of the repository:

* `src/backend/src/services/shopifyService.ts` — pull-path reconciliation
  (`syncCustomers`, `syncOrders`, `syncProducts`, `syncTenantData`);
* the webhook router (`verifyWebhookSignature`, `router.post('/shopify/:tenantId')`,
  `handleCustomerWebhook`, `handleOrderWebhook`, `handleProductWebhook`,
  `handleCartEvent`) — push-path reconciliation;
* the insights router's RFM segmentation and revenue-forecast handlers.

Conventions of the embedding:

* The Prisma store is a `Store`: lists of rows plus a counter `nextId` that
  stands for Prisma's generated row ids (cuids); a freshly created row gets
  `nextId` as its local id.
* JSON payload fields that may be `null`/absent are `Option`s; a JavaScript
  string that parses with `parseFloat` is carried directly as the exact
  rational it denotes (`ℚ`), so `parseFloat(x || '0')` becomes `x.getD 0`.
* JavaScript truthiness on optional strings (`null`, `undefined` and `""` are
  falsy) is `strTruthy`; `a || b` on such values is `jsOrStr`.
* Dates are epoch milliseconds (`Int`).
* Prisma `upsert` on the composite natural key `tenantId_shopifyId` is
  `upsertFind`: update the matching row in place if one exists, otherwise
  append the `create` row; the saved row is returned like Prisma does.
-/

namespace ShopifyInsights

/-- JavaScript truthiness of an optional string: `null`/`undefined` (`none`)
and the empty string are falsy, every other string is truthy. -/
def strTruthy : Option String → Bool
  | none => false
  | some s => s ≠ ""

/-- JavaScript `a || b` on optional strings. -/
def jsOrStr (a b : Option String) : Option String :=
  if strTruthy a then a else b

/-- `Math.round` on an exact rational: round half toward positive infinity. -/
def jsRound (q : ℚ) : ℤ := ⌊q + 1/2⌋

/-- `Math.round(q * 100) / 100` — round a monetary value to 2 decimals. -/
def round2 (q : ℚ) : ℚ := (jsRound (q * 100) : ℚ) / 100

/-! ## Stored rows (the Prisma tables used by the core) -/

/-- A row of the `Tenant` table (the fields the core reads/writes). -/
structure TenantRow where
  id : String
  name : String
  shopifyDomain : String
  accessToken : Option String
  isActive : Bool
  lastSyncAt : Option Int
deriving DecidableEq, Repr

/-- A row of the `Customer` table. -/
structure CustomerRow where
  localId : Nat
  tenantId : String
  shopifyId : String
  email : Option String
  firstName : Option String
  lastName : Option String
  phone : Option String
  tags : Option String
  totalSpent : ℚ
  ordersCount : Int
  shopifyCreatedAt : Option Int
deriving DecidableEq, Repr

/-- A row of the `Order` table. -/
structure OrderRow where
  localId : Nat
  tenantId : String
  shopifyId : String
  orderNumber : Option String
  name : Option String
  totalPrice : ℚ
  subtotalPrice : Option ℚ
  totalTax : Option ℚ
  totalDiscounts : Option ℚ
  currency : String
  financialStatus : Option String
  fulfillmentStatus : Option String
  customerId : Option Nat
  orderDate : Int
deriving DecidableEq, Repr

/-- A row of the `OrderLineItem` table (its own generated id is unused by the
core, so it is not modelled). -/
structure LineItemRow where
  shopifyId : String
  orderId : Nat
  productId : Option String
  title : Option String
  quantity : Int
  price : ℚ
  sku : Option String
  variantId : Option String
deriving DecidableEq, Repr

/-- A row of the `Product` table. -/
structure ProductRow where
  localId : Nat
  tenantId : String
  shopifyId : String
  title : Option String
  handle : Option String
  vendor : Option String
  productType : Option String
  status : String
  tags : Option String
  price : ℚ
  compareAtPrice : Option ℚ
  inventory : Int
  imageUrl : Option String
  shopifyCreatedAt : Option Int
deriving DecidableEq, Repr

/-- A row of the `Event` table (the opaque JSON `payload` blob is not
modelled; the core never reads it back). -/
structure EventRow where
  tenantId : String
  type : String
  source : String
  customerId : Option String
  sessionId : Option String
deriving DecidableEq, Repr

/-- A row of the `SyncLog` table. -/
structure SyncLogRow where
  id : Nat
  tenantId : String
  type : String
  status : String
  itemCount : Option Nat
  error : Option String
  completedAt : Option Int
deriving DecidableEq, Repr

/-- The persistent store: every table the sync/webhook/analytics core touches,
plus the fresh-id counter standing for Prisma's id generation. -/
structure Store where
  nextId : Nat
  tenants : List TenantRow
  customers : List CustomerRow
  orders : List OrderRow
  lineItems : List LineItemRow
  products : List ProductRow
  events : List EventRow
  syncLogs : List SyncLogRow
deriving DecidableEq, Repr

/-- The store with no rows at all. -/
def Store.empty : Store := ⟨0, [], [], [], [], [], [], []⟩

/-! ## External payloads (the JSON shapes the code reads) -/

/-- A Shopify customer payload as read by `syncCustomers` and
`handleCustomerWebhook`: `id` is already stringified (`String(payload.id)`),
money strings are carried as exact rationals. -/
structure CustomerPayload where
  id : String
  email : Option String
  first_name : Option String
  last_name : Option String
  phone : Option String
  tags : Option String
  total_spent : Option ℚ
  orders_count : Option Int
  created_at : Option Int
deriving DecidableEq, Repr

/-- `default_address` of a customer object embedded in an order payload. -/
structure AddressPayload where
  first_name : Option String
  last_name : Option String
  phone : Option String
deriving DecidableEq, Repr

/-- The (sparser) customer object embedded in an order payload, as read by
`syncOrders` and `handleOrderWebhook`. -/
structure OrderCustomerPayload where
  id : String
  email : Option String
  first_name : Option String
  last_name : Option String
  phone : Option String
  default_address : Option AddressPayload
deriving DecidableEq, Repr

/-- One entry of an order payload's `line_items` array. -/
structure LineItemPayload where
  id : String
  product_id : Option String
  title : Option String
  quantity : Int
  price : Option ℚ
  sku : Option String
  variant_id : Option String
deriving DecidableEq, Repr

/-- A Shopify order payload as read by `syncOrders` and `handleOrderWebhook`. -/
structure OrderPayload where
  id : String
  order_number : Option Int
  name : Option String
  total_price : Option ℚ
  subtotal_price : Option ℚ
  total_tax : Option ℚ
  total_discounts : Option ℚ
  currency : Option String
  financial_status : Option String
  fulfillment_status : Option String
  customer : Option OrderCustomerPayload
  created_at : Int
  line_items : Option (List LineItemPayload)
deriving DecidableEq, Repr

/-- One entry of a product payload's `variants` array (the fields the code
reads from the first variant). -/
structure VariantPayload where
  price : Option ℚ
  compare_at_price : Option ℚ
  inventory_quantity : Option Int
deriving DecidableEq, Repr

/-- A Shopify product payload as read by `syncProducts` and
`handleProductWebhook`; `image_src` models `payload.image?.src` and
`images_first_src` models `payload.images?.[0]?.src`. -/
structure ProductPayload where
  id : String
  title : Option String
  handle : Option String
  vendor : Option String
  product_type : Option String
  status : Option String
  tags : Option String
  variants : Option (List VariantPayload)
  image_src : Option String
  images_first_src : Option String
  created_at : Option Int
deriving DecidableEq, Repr

/-- A cart/checkout payload as read by `handleCartEvent`:
`customer_id` models `payload.customer?.id?.toString()`. -/
structure CartPayload where
  customer_id : Option String
  token : Option String
deriving DecidableEq, Repr

/-! ## Prisma upsert on a list of rows -/

/-- Prisma `upsert` by a (unique-key) predicate: if a row matches, apply the
`update` map in place and return the updated row; otherwise append the
`create` row and return it.  The `Bool` reports whether a row was created. -/
def upsertFind {α : Type} (keyMatch : α → Bool) (upd : α → α) (new : α)
    (l : List α) : List α × α × Bool :=
  match l.find? keyMatch with
  | some r => (l.map fun x => if keyMatch x then upd x else x, upd r, false)
  | none => (l ++ [new], new, true)

/-- The composite key `tenantId_shopifyId` on `Customer` rows. -/
def cMatch (tenantId shopifyId : String) (r : CustomerRow) : Bool :=
  r.tenantId == tenantId && r.shopifyId == shopifyId

/-- The composite key `tenantId_shopifyId` on `Order` rows. -/
def oMatch (tenantId shopifyId : String) (r : OrderRow) : Bool :=
  r.tenantId == tenantId && r.shopifyId == shopifyId

/-- The composite key `tenantId_shopifyId` on `Product` rows. -/
def pMatch (tenantId shopifyId : String) (r : ProductRow) : Bool :=
  r.tenantId == tenantId && r.shopifyId == shopifyId

/-! ## Customer reconciliation (pull path and webhook path) -/

/-- The `update` map of the full customer upsert (identical in
`syncCustomers` and `handleCustomerWebhook`). -/
def customerUpdateOfPayload (p : CustomerPayload) (r : CustomerRow) : CustomerRow :=
  { r with
    email := p.email
    firstName := p.first_name
    lastName := p.last_name
    phone := p.phone
    tags := p.tags
    totalSpent := p.total_spent.getD 0
    ordersCount := p.orders_count.getD 0 }

/-- The `create` map of the full customer upsert. -/
def customerCreateOfPayload (tenantId : String) (localId : Nat)
    (p : CustomerPayload) : CustomerRow :=
  { localId := localId
    tenantId := tenantId
    shopifyId := p.id
    email := p.email
    firstName := p.first_name
    lastName := p.last_name
    phone := p.phone
    tags := p.tags
    totalSpent := p.total_spent.getD 0
    ordersCount := p.orders_count.getD 0
    shopifyCreatedAt := p.created_at }

/-- One customer record of the pull path: the body of the `for` loop of
`syncCustomers` in `shopifyService.ts`. -/
def syncCustomerRecord (tenantId : String) (st : Store) (p : CustomerPayload) : Store :=
  let u := upsertFind (cMatch tenantId p.id)
      (customerUpdateOfPayload p) (customerCreateOfPayload tenantId st.nextId p)
      st.customers
  { st with
    customers := u.1
    nextId := if u.2.2 then st.nextId + 1 else st.nextId }

/-- `handleCustomerWebhook` of the webhook router (textually the same mapping
as the pull path's customer upsert, duplicated in the source). -/
def handleCustomerWebhook (tenantId : String) (st : Store) (p : CustomerPayload) : Store :=
  let u := upsertFind (cMatch tenantId p.id)
      (customerUpdateOfPayload p) (customerCreateOfPayload tenantId st.nextId p)
      st.customers
  { st with
    customers := u.1
    nextId := if u.2.2 then st.nextId + 1 else st.nextId }

/-! ## Order reconciliation -/

/-- The `update` map of the embedded-customer upsert inside `syncOrders`:
each field is `x || y || undefined`, and an `undefined` value makes Prisma
leave the column unchanged. -/
def orderCustomerUpdate (cd : OrderCustomerPayload) (r : CustomerRow) : CustomerRow :=
  let fn := jsOrStr cd.first_name (cd.default_address.bind (·.first_name))
  let ln := jsOrStr cd.last_name (cd.default_address.bind (·.last_name))
  let ph := jsOrStr cd.phone (cd.default_address.bind (·.phone))
  { r with
    email := if strTruthy cd.email then cd.email else r.email
    firstName := if strTruthy fn then fn else r.firstName
    lastName := if strTruthy ln then ln else r.lastName
    phone := if strTruthy ph then ph else r.phone }

/-- The `create` map of the embedded-customer upsert inside `syncOrders`
(sparser than a full customer sync: counters start at 0, no tags, no
external creation timestamp). -/
def orderCustomerCreate (tenantId : String) (localId : Nat)
    (cd : OrderCustomerPayload) : CustomerRow :=
  { localId := localId
    tenantId := tenantId
    shopifyId := cd.id
    email := cd.email
    firstName := jsOrStr cd.first_name (cd.default_address.bind (·.first_name))
    lastName := jsOrStr cd.last_name (cd.default_address.bind (·.last_name))
    phone := jsOrStr cd.phone (cd.default_address.bind (·.phone))
    tags := none
    totalSpent := 0
    ordersCount := 0
    shopifyCreatedAt := none }

/-- The `update` map of the order upsert in `syncOrders`: note that it
overwrites `customerId` (the webhook variant does not). -/
def orderUpdatePull (p : OrderPayload) (customerId : Option Nat)
    (r : OrderRow) : OrderRow :=
  { r with
    totalPrice := p.total_price.getD 0
    subtotalPrice := p.subtotal_price
    totalTax := p.total_tax
    totalDiscounts := p.total_discounts
    financialStatus := p.financial_status
    fulfillmentStatus := p.fulfillment_status
    customerId := customerId }

/-- The `update` map of the order upsert in `handleOrderWebhook`: it does
not touch `customerId`. -/
def orderUpdateWebhook (p : OrderPayload) (r : OrderRow) : OrderRow :=
  { r with
    totalPrice := p.total_price.getD 0
    subtotalPrice := p.subtotal_price
    totalTax := p.total_tax
    totalDiscounts := p.total_discounts
    financialStatus := p.financial_status
    fulfillmentStatus := p.fulfillment_status }

/-- The `create` map of the order upsert (identical in `syncOrders` and
`handleOrderWebhook`): `orderNumber` is
`payload.order_number?.toString() || payload.name`, `currency` is
`payload.currency || 'USD'`, `orderDate` is `new Date(payload.created_at)`. -/
def orderCreateRow (tenantId : String) (localId : Nat) (p : OrderPayload)
    (customerId : Option Nat) : OrderRow :=
  { localId := localId
    tenantId := tenantId
    shopifyId := p.id
    orderNumber := match p.order_number with
      | some k => some (toString k)
      | none => p.name
    name := p.name
    totalPrice := p.total_price.getD 0
    subtotalPrice := p.subtotal_price
    totalTax := p.total_tax
    totalDiscounts := p.total_discounts
    currency := (jsOrStr p.currency (some "USD")).getD "USD"
    financialStatus := p.financial_status
    fulfillmentStatus := p.fulfillment_status
    customerId := customerId
    orderDate := p.created_at }

/-- The line-item row created for a saved order from one `line_items`
entry: `price` is `parseFloat(item.price || '0')`. -/
def lineItemRowOfPayload (orderId : Nat) (it : LineItemPayload) : LineItemRow :=
  { shopifyId := it.id
    orderId := orderId
    productId := it.product_id
    title := it.title
    quantity := it.quantity
    price := it.price.getD 0
    sku := it.sku
    variantId := it.variant_id }

/-- The `// Create or update customer from order data` block at the top of
`syncOrders`'s loop body: upsert the embedded customer if present and return
the resulting `customerId`. -/
def syncOrderCustomerStep (tenantId : String) (st : Store) (p : OrderPayload) :
    Store × Option Nat :=
  match p.customer with
  | some cd =>
    if cd.id ≠ "" then
      let u := upsertFind (cMatch tenantId cd.id) (orderCustomerUpdate cd)
          (orderCustomerCreate tenantId st.nextId cd) st.customers
      ({ st with
         customers := u.1
         nextId := if u.2.2 then st.nextId + 1 else st.nextId },
       some u.2.1.localId)
    else (st, none)
  | none => (st, none)

/-- The `const savedOrder = await prisma.order.upsert(...)` of `syncOrders`,
returning the saved order's local id; the `update` map sets `customerId`. -/
def syncOrderUpsertStep (tenantId : String) (st : Store) (p : OrderPayload)
    (customerId : Option Nat) : Store × Nat :=
  let u := upsertFind (oMatch tenantId p.id) (orderUpdatePull p customerId)
      (orderCreateRow tenantId st.nextId p customerId) st.orders
  ({ st with
     orders := u.1
     nextId := if u.2.2 then st.nextId + 1 else st.nextId },
   u.2.1.localId)

/-- The `// Sync line items` block of `syncOrders`: when `line_items` is
present (any array, even empty, is truthy) delete every stored line item of
the saved order and recreate the payload's set; when absent, do nothing. -/
def replaceLineItems (st : Store) (orderId : Nat) :
    Option (List LineItemPayload) → Store
  | none => st
  | some items =>
    { st with lineItems :=
        st.lineItems.filter (fun li => li.orderId != orderId)
          ++ items.map (lineItemRowOfPayload orderId) }

/-- One order record of the pull path, also returning the saved order's local
id (`savedOrder.id`): the body of the `for` loop of `syncOrders` — resolve or
create the embedded customer, upsert the order (with `customerId`), then
replace its line items. -/
def syncOrderRecordR (tenantId : String) (st : Store) (p : OrderPayload) :
    Store × Nat :=
  let c := syncOrderCustomerStep tenantId st p
  let o := syncOrderUpsertStep tenantId c.1 p c.2
  (replaceLineItems o.1 o.2 p.line_items, o.2)

/-- One order record of the pull path (store part of `syncOrderRecordR`). -/
def syncOrderRecord (tenantId : String) (st : Store) (p : OrderPayload) : Store :=
  (syncOrderRecordR tenantId st p).1

/-- `handleOrderWebhook` of the webhook router: it only *looks up* the
embedded customer (`findUnique`; a missing customer stays missing), upserts
the order (its `update` map does not set `customerId`), and never touches
line items. -/
def handleOrderWebhook (tenantId : String) (st : Store) (p : OrderPayload) : Store :=
  let customerId : Option Nat :=
    match p.customer with
    | some cd =>
      if cd.id ≠ "" then
        (st.customers.find? (cMatch tenantId cd.id)).map (·.localId)
      else none
    | none => none
  let u := upsertFind (oMatch tenantId p.id) (orderUpdateWebhook p)
      (orderCreateRow tenantId st.nextId p customerId) st.orders
  { st with
    orders := u.1
    nextId := if u.2.2 then st.nextId + 1 else st.nextId }

/-! ## Product reconciliation -/

/-- The product column values computed from a payload (identical `update` and
`create` field expressions in `syncProducts` and `handleProductWebhook`):
price/compare-at-price/inventory come from the first variant only, the image
from `payload.image?.src || payload.images?.[0]?.src`. -/
def productUpdateOfPayload (p : ProductPayload) (r : ProductRow) : ProductRow :=
  let firstVariant := p.variants.bind List.head?
  { r with
    title := p.title
    handle := p.handle
    vendor := p.vendor
    productType := p.product_type
    status := (jsOrStr p.status (some "active")).getD "active"
    tags := p.tags
    price := match firstVariant with
      | some v => v.price.getD 0
      | none => 0
    compareAtPrice := firstVariant.bind (·.compare_at_price)
    inventory := (firstVariant.bind (·.inventory_quantity)).getD 0
    imageUrl := jsOrStr p.image_src p.images_first_src }

/-- The `create` map of the product upsert. -/
def productCreateOfPayload (tenantId : String) (localId : Nat)
    (p : ProductPayload) : ProductRow :=
  productUpdateOfPayload p
    { localId := localId
      tenantId := tenantId
      shopifyId := p.id
      title := none
      handle := none
      vendor := none
      productType := none
      status := "active"
      tags := none
      price := 0
      compareAtPrice := none
      inventory := 0
      imageUrl := none
      shopifyCreatedAt := p.created_at }

/-- One product record of the pull path: the body of the `for` loop of
`syncProducts`. -/
def syncProductRecord (tenantId : String) (st : Store) (p : ProductPayload) : Store :=
  let u := upsertFind (pMatch tenantId p.id)
      (productUpdateOfPayload p) (productCreateOfPayload tenantId st.nextId p)
      st.products
  { st with
    products := u.1
    nextId := if u.2.2 then st.nextId + 1 else st.nextId }

/-- `handleProductWebhook` of the webhook router (same mapping as the pull
path's product upsert, duplicated in the source). -/
def handleProductWebhook (tenantId : String) (st : Store) (p : ProductPayload) : Store :=
  let u := upsertFind (pMatch tenantId p.id)
      (productUpdateOfPayload p) (productCreateOfPayload tenantId st.nextId p)
      st.products
  { st with
    products := u.1
    nextId := if u.2.2 then st.nextId + 1 else st.nextId }

/-- `handleCartEvent`: append a new `Event` row (never upserted). -/
def handleCartEvent (tenantId eventType : String) (st : Store) (p : CartPayload) : Store :=
  { st with events := st.events ++
      [{ tenantId := tenantId
         type := eventType
         source := "webhook"
         customerId := p.customer_id
         sessionId := p.token }] }

/-! ## The webhook endpoint -/

/-- An inbound webhook's topic together with its parsed JSON body.  The
constructors stand for the string topics of the route's `switch`:
`customers/create`, `customers/update`, `orders/create`, `orders/updated`,
`products/create`, `products/update`, `carts/create`, `carts/update`,
`checkouts/create`, `checkouts/delete`; `unhandled` is any other topic. -/
inductive WebhookTopicPayload where
  | customersCreate (p : CustomerPayload)
  | customersUpdate (p : CustomerPayload)
  | ordersCreate (p : OrderPayload)
  | ordersUpdated (p : OrderPayload)
  | productsCreate (p : ProductPayload)
  | productsUpdate (p : ProductPayload)
  | cartsCreate (p : CartPayload)
  | cartsUpdate (p : CartPayload)
  | checkoutsCreate (p : CartPayload)
  | checkoutsDelete (p : CartPayload)
  | unhandled
deriving DecidableEq, Repr

set_option linter.unusedVariables false in
/-- `POST /api/webhooks/shopify/:tenantId`: look up the tenant (404 if
unknown), then dispatch on the topic and answer 200.  The handler reads the
`x-shopify-hmac-sha256` header into `signature` but — exactly as in the
source — never verifies it: the defined `verifyWebhookSignature` helper is
dead code (and itself calls the non-existent `crypto.timingSafeEquals`), so
`signature` is an unused argument and every well-formed request is applied
to storage regardless of its signature. -/
def webhookPost (st : Store) (tenantId : String) (signature : String)
    (req : WebhookTopicPayload) : Store × Nat :=
  match st.tenants.find? (fun t => t.id == tenantId) with
  | none => (st, 404)
  | some _ =>
    let st' :=
      match req with
      | .customersCreate p => handleCustomerWebhook tenantId st p
      | .customersUpdate p => handleCustomerWebhook tenantId st p
      | .ordersCreate p => handleOrderWebhook tenantId st p
      | .ordersUpdated p => handleOrderWebhook tenantId st p
      | .productsCreate p => handleProductWebhook tenantId st p
      | .productsUpdate p => handleProductWebhook tenantId st p
      | .cartsCreate p => handleCartEvent tenantId "cart_updated" st p
      | .cartsUpdate p => handleCartEvent tenantId "cart_updated" st p
      | .checkoutsCreate p => handleCartEvent tenantId "checkout_started" st p
      | .checkoutsDelete p => handleCartEvent tenantId "cart_abandoned" st p
      | .unhandled => st
    (st', 200)

/-! ## The sync orchestrator (`syncTenantData`) -/

/-- The record types a sync run can cover. -/
inductive SyncType where
  | customers
  | orders
  | products
deriving DecidableEq, Repr

/-- The string stored in a `SyncLog` row's `type` column. -/
def SyncType.toColumn : SyncType → String
  | .customers => "customers"
  | .orders => "orders"
  | .products => "products"

/-- One fetch-and-reconcile pass for one record type.  The external API is
abstracted by the three `Except` arguments: `.ok ps` is the decoded page of
records, `.error msg` a thrown Shopify request error.  On success the item
count is the number of records processed (`count++` per loop iteration). -/
def applySyncType (tenantId : String) (ty : SyncType)
    (fetchedCustomers : Except String (List CustomerPayload))
    (fetchedOrders : Except String (List OrderPayload))
    (fetchedProducts : Except String (List ProductPayload))
    (st : Store) : Except String (Store × Nat) :=
  match ty with
  | .customers => fetchedCustomers.map
      (fun ps => (ps.foldl (syncCustomerRecord tenantId) st, ps.length))
  | .orders => fetchedOrders.map
      (fun ps => (ps.foldl (syncOrderRecord tenantId) st, ps.length))
  | .products => fetchedProducts.map
      (fun ps => (ps.foldl (syncProductRecord tenantId) st, ps.length))

/-- The body of the per-type loop of `syncTenantData`: create a `SyncLog` row
in `running` state, run the sync, then transition the log to `completed`
(with item count) or `failed` (with the error text), stamping `completedAt`. -/
def runSyncForType (tenantId : String) (now : Int)
    (fetchedCustomers : Except String (List CustomerPayload))
    (fetchedOrders : Except String (List OrderPayload))
    (fetchedProducts : Except String (List ProductPayload))
    (st : Store) (ty : SyncType) : Store :=
  let logId := st.nextId
  let st1 := { st with
    syncLogs := st.syncLogs ++
      [{ id := logId
         tenantId := tenantId
         type := ty.toColumn
         status := "running"
         itemCount := none
         error := none
         completedAt := none }]
    nextId := st.nextId + 1 }
  match applySyncType tenantId ty fetchedCustomers fetchedOrders fetchedProducts st1 with
  | .ok (st2, count) =>
    { st2 with syncLogs := st2.syncLogs.map (fun l =>
        if l.id == logId then
          { l with status := "completed", itemCount := some count, completedAt := some now }
        else l) }
  | .error msg =>
    { st1 with syncLogs := st1.syncLogs.map (fun l =>
        if l.id == logId then
          { l with status := "failed", error := some msg, completedAt := some now }
        else l) }

/-- `syncTenantData` of `shopifyService.ts`: look up the tenant and require a
stored access token — absence throws `'Tenant not found or Shopify not
connected'` before anything is written; otherwise run each requested type
through its SyncLog lifecycle and finally stamp the tenant's `lastSyncAt`.
The returned `Option String` is the thrown error, `none` on normal return. -/
def syncTenantData (st : Store) (tenantId : String) (types : List SyncType)
    (fetchedCustomers : Except String (List CustomerPayload))
    (fetchedOrders : Except String (List OrderPayload))
    (fetchedProducts : Except String (List ProductPayload))
    (now : Int) : Store × Option String :=
  match st.tenants.find? (fun t => t.id == tenantId) with
  | none => (st, some "Tenant not found or Shopify not connected")
  | some tenant =>
    match tenant.accessToken with
    | none => (st, some "Tenant not found or Shopify not connected")
    | some _ =>
      let st1 := types.foldl
        (runSyncForType tenantId now fetchedCustomers fetchedOrders fetchedProducts) st
      let st2 := { st1 with tenants := st1.tenants.map (fun t =>
          if t.id == tenantId then { t with lastSyncAt := some now } else t) }
      (st2, none)

/-! ## Analytics: RFM segmentation (`GET /api/insights/rfm-segments`) -/

/-- The eight RFM segments of the decision list. -/
inductive Segment where
  | champions
  | loyalCustomers
  | potentialLoyalists
  | recentCustomers
  | promising
  | needAttention
  | atRisk
  | hibernating
deriving DecidableEq, Repr

/-- `daysSinceLastOrder`: `Math.floor((now - lastOrderDate) / 86400000)` for a
customer with at least one order, the sentinel `999` otherwise (timestamps in
epoch milliseconds). -/
def daysSinceLastOrder (now : Int) (lastOrderDate : Option Int) : Int :=
  match lastOrderDate with
  | some t => Int.fdiv (now - t) 86400000
  | none => 999

/-- The recency score (1–5) from `daysSinceLastOrder`. -/
def recencyScore (d : Int) : Nat :=
  if d ≤ 7 then 5 else if d ≤ 30 then 4 else if d ≤ 90 then 3
  else if d ≤ 180 then 2 else 1

/-- The frequency score (1–5) from `ordersCount`. -/
def frequencyScore (frequency : Int) : Nat :=
  if frequency ≥ 10 then 5 else if frequency ≥ 5 then 4 else if frequency ≥ 3 then 3
  else if frequency ≥ 2 then 2 else 1

/-- The monetary score (1–5) from `totalSpent`. -/
def monetaryScore (monetary : ℚ) : Nat :=
  if monetary ≥ 1000 then 5 else if monetary ≥ 500 then 4 else if monetary ≥ 200 then 3
  else if monetary ≥ 50 then 2 else 1

/-- The priority-ordered segment decision list (first matching rule wins). -/
def assignSegment (r f m : Nat) : Segment :=
  if r ≥ 4 ∧ f ≥ 4 ∧ m ≥ 4 then .champions
  else if f ≥ 4 ∧ m ≥ 3 then .loyalCustomers
  else if r ≥ 4 ∧ f ≥ 2 then .potentialLoyalists
  else if r ≥ 4 ∧ f = 1 then .recentCustomers
  else if r ≥ 3 ∧ m ≥ 2 then .promising
  else if r ≤ 2 ∧ f ≥ 3 then .needAttention
  else if r ≤ 2 ∧ f ≥ 2 then .atRisk
  else .hibernating

/-- The whole per-customer classification: scores from the raw inputs, then
the decision list. -/
def classifyCustomer (now : Int) (lastOrderDate : Option Int)
    (ordersCount : Int) (totalSpent : ℚ) : Segment :=
  assignSegment (recencyScore (daysSinceLastOrder now lastOrderDate))
    (frequencyScore ordersCount) (monetaryScore totalSpent)

/-- The tenant-scoped customer read used by the insights handlers
(`prisma.customer.findMany({ where: { tenantId } })`). -/
def customersForTenant (st : Store) (tenantId : String) : List CustomerRow :=
  st.customers.filter (fun c => c.tenantId == tenantId)

/-! ## Analytics: revenue forecast (`GET /api/insights/revenue-forecast`)

The handler's input after the SQL aggregation is the ordered list of daily
revenue buckets; the embedding takes that list of revenues (`xs`) directly. -/

/-- `xMean = (n - 1) / 2` over the bucket indices. -/
def xMean (xs : List ℚ) : ℚ := ((xs.length : ℚ) - 1) / 2

/-- `yMean`: mean daily revenue over the buckets. -/
def yMean (xs : List ℚ) : ℚ := xs.sum / (xs.length : ℚ)

/-- The regression numerator `Σ (i - xMean)·(yᵢ - yMean)`. -/
def slopeNumerator (xs : List ℚ) : ℚ :=
  (xs.enum.map (fun p => ((p.1 : ℚ) - xMean xs) * (p.2 - yMean xs))).sum

/-- The regression denominator `Σ (i - xMean)²`. -/
def slopeDenominator (xs : List ℚ) : ℚ :=
  (xs.enum.map (fun p => ((p.1 : ℚ) - xMean xs) * ((p.1 : ℚ) - xMean xs))).sum

/-- The fitted slope; the source guards this division
(`denominator !== 0 ? numerator / denominator : 0`). -/
def slope (xs : List ℚ) : ℚ :=
  if slopeDenominator xs ≠ 0 then slopeNumerator xs / slopeDenominator xs else 0

/-- `intercept = yMean - slope * xMean`. -/
def intercept (xs : List ℚ) : ℚ := yMean xs - slope xs * xMean xs

/-- The residuals `yᵢ - (intercept + slope·i)` over the fitted line. -/
def residuals (xs : List ℚ) : List ℚ :=
  xs.enum.map (fun p => p.2 - (intercept xs + slope xs * (p.1 : ℚ)))

/-- The residual variance `Σ rᵢ² / n`. -/
def variance (xs : List ℚ) : ℚ :=
  ((residuals xs).map (fun r => r * r)).sum / (xs.length : ℚ)

/-- The extrapolated value `intercept + slope · (n - 1 + i)` for forecast
day `i` (1-based). -/
def predictedAt (xs : List ℚ) (i : Nat) : ℚ :=
  intercept xs + slope xs * ((xs.length : ℚ) - 1 + (i : ℚ))

/-- The `predictedRevenue` values of the 7 forecast points:
`Math.max(0, Math.round(predicted * 100) / 100)`. -/
def forecastPredicted (xs : List ℚ) : List ℚ :=
  (List.range 7).map (fun k => max 0 (round2 (predictedAt xs (k + 1))))

/-- One point's confidence
`Math.round(Math.max(0, Math.min(100, 100 - stdDev / yMean * 100 * 0.5)))`,
taking the already-computed `stdDev = Math.sqrt(variance)` as an argument
(square roots are stated relationally in the theorems). -/
def confidenceScore (stdDev yMeanValue : ℚ) : ℤ :=
  jsRound (max 0 (min 100 (100 - stdDev / yMeanValue * 100 * (1/2))))

/-- The confidence attached to each of the 7 forecast points (the loop
computes the same value for every point). -/
def forecastConfidences (xs : List ℚ) (stdDev : ℚ) : List ℤ :=
  (List.range 7).map (fun _ => confidenceScore stdDev (yMean xs))

/-- The trend classification against 1% of mean daily revenue. -/
inductive Trend where
  | insufficientData
  | growing
  | declining
  | stable
deriving DecidableEq, Repr

/-- `slope > yMean * 0.01 ? 'growing' : slope < -yMean * 0.01 ? 'declining' :
'stable'`. -/
def trendDirection (xs : List ℚ) : Trend :=
  if slope xs > yMean xs * (1/100) then .growing
  else if slope xs < -(yMean xs * (1/100)) then .declining
  else .stable

/-- The part of the revenue-forecast response the claims are about: the trend
label and the 7 `predictedRevenue` values.  `n < 7` takes the early
`insufficient_data` return with an empty forecast. -/
structure ForecastResult where
  trend : Trend
  forecastPredicted : List ℚ
deriving DecidableEq, Repr

/-- The revenue-forecast computation on the daily buckets. -/
def revenueForecast (xs : List ℚ) : ForecastResult :=
  if xs.length < 7 then { trend := .insufficientData, forecastPredicted := [] }
  else { trend := trendDirection xs, forecastPredicted := forecastPredicted xs }

/-- `weeklyGrowth`: for more than 7 buckets,
`(slice(-7).sum / slice(-14,-7).sum - 1) * 100`, otherwise `0`.  The JS
division is unguarded: a zero prior-window sum produces `Infinity`/`NaN`,
modelled here as `none`; `some q` is the finite value `q`. -/
def weeklyGrowth (xs : List ℚ) : Option ℚ :=
  if 7 < xs.length then
    let lastSum := ((xs.drop (xs.length - 7)).sum : ℚ)
    let priorSum := (((xs.take (xs.length - 7)).drop (xs.length - 14)).sum : ℚ)
    if priorSum = 0 then none else some ((lastSum / priorSum - 1) * 100)
  else some 0

/-! ## Concrete fixtures used by counterexamples and witnesses -/

/-- A webhook order payload with an embedded customer (id `"c77"`, not yet
stored) and one line item — the input exhibiting the push/pull divergence. -/
def orderPayloadC2 : OrderPayload :=
  { id := "9001"
    order_number := some 1001
    name := some "#1001"
    total_price := some 50
    subtotal_price := none
    total_tax := none
    total_discounts := none
    currency := some "USD"
    financial_status := some "paid"
    fulfillment_status := none
    customer := some ⟨"c77", some "a@b.c", some "Ann", none, none, none⟩
    created_at := 1700000000000
    line_items := some [⟨"li1", none, some "Widget", 2, some 10, none, none⟩] }

/-- A customer payload delivered by webhook (external id `"42"`). -/
def customerPayloadC1 : CustomerPayload :=
  ⟨"42", some "x@y.z", some "Bo", none, none, none, some 5, some 1,
   some 1700000000000⟩

/-- A store holding exactly one tenant `"t1"` and no data rows. -/
def storeT1 : Store :=
  { Store.empty with
    tenants := [⟨"t1", "Tenant One", "t1shop", some "tok", true, none⟩] }

/-- A store holding one tenant `"t9"` whose `accessToken` is absent. -/
def storeNotConnected : Store :=
  { Store.empty with
    tenants := [⟨"t9", "Tenant Nine", "t9shop", none, true, none⟩] }

/-- A full-sync customer payload (external id `"123"`) shared by two tenants. -/
def customerPayload123 : CustomerPayload :=
  ⟨"123", some "c@d.e", some "Cy", none, none, none, some 10, some 2, none⟩

/-- First-sync order payload: external id `"o1"`, line items `[A, B]`. -/
def orderPayloadAB : OrderPayload :=
  { id := "o1"
    order_number := some 11
    name := some "#11"
    total_price := some 30
    subtotal_price := none
    total_tax := none
    total_discounts := none
    currency := some "USD"
    financial_status := some "paid"
    fulfillment_status := none
    customer := none
    created_at := 1700000000000
    line_items := some
      [⟨"A", none, some "Item A", 1, some 10, none, none⟩,
       ⟨"B", none, some "Item B", 1, some 20, none, none⟩] }

/-- Re-sync order payload: same external id `"o1"`, line items `[C]`. -/
def orderPayloadC : OrderPayload :=
  { id := "o1"
    order_number := some 11
    name := some "#11"
    total_price := some 5
    subtotal_price := none
    total_tax := none
    total_discounts := none
    currency := some "USD"
    financial_status := some "paid"
    fulfillment_status := none
    customer := none
    created_at := 1700000000000
    line_items := some [⟨"C", none, some "Item C", 1, some 5, none, none⟩] }

/-- The 10-day perfectly linear revenue series, day `i` revenue `100 + 10·i`. -/
def series10 : List ℚ := [100, 110, 120, 130, 140, 150, 160, 170, 180, 190]

/-! ## Helper lemmas about `upsertFind` and the key predicates -/

theorem upsertFind_exists_match {α : Type} (m : α → Bool) (upd : α → α) (new : α)
    (l : List α) (hupd : ∀ x, m x = true → m (upd x) = true) (hnew : m new = true) :
    ∃ r ∈ (upsertFind m upd new l).1, m r = true := by
  cases h : l.find? m with
  | some r =>
    have hmr : m r = true := List.find?_some h
    have hrl : r ∈ l := List.mem_of_find?_eq_some h
    have hmem : upd r ∈ l.map (fun x => if m x then upd x else x) := by
      simpa [hmr] using List.mem_map_of_mem (fun x => if m x then upd x else x) hrl
    exact ⟨upd r, by simp [upsertFind, h, hmem], hupd r hmr⟩
  | none =>
    exact ⟨new, by simp [upsertFind, h], hnew⟩

theorem mem_upsertFind_of_not_match {α : Type} (m : α → Bool) (upd : α → α) (new : α)
    (l : List α) (r : α) (hr : r ∈ l) (hm : m r = false) :
    r ∈ (upsertFind m upd new l).1 := by
  cases h : l.find? m with
  | some r' =>
    have hmem : r ∈ l.map (fun x => if m x then upd x else x) := by
      simpa [hm] using List.mem_map_of_mem (fun x => if m x then upd x else x) hr
    simpa [upsertFind, h] using hmem
  | none =>
    simp [upsertFind, h]
    exact Or.inl hr

theorem upsertFind_saved_mem {α : Type} (m : α → Bool) (upd : α → α) (new : α)
    (l : List α) (hupd : ∀ x, m x = true → m (upd x) = true) (hnew : m new = true) :
    (upsertFind m upd new l).2.1 ∈ (upsertFind m upd new l).1 ∧
      m (upsertFind m upd new l).2.1 = true := by
  cases h : l.find? m with
  | some r =>
    have hmr : m r = true := List.find?_some h
    have hrl : r ∈ l := List.mem_of_find?_eq_some h
    have hmem : upd r ∈ l.map (fun x => if m x then upd x else x) := by
      simpa [hmr] using List.mem_map_of_mem (fun x => if m x then upd x else x) hrl
    exact ⟨by simp [upsertFind, h, hmem], by simp [upsertFind, h, hupd r hmr]⟩
  | none =>
    exact ⟨by simp [upsertFind, h], by simp [upsertFind, h, hnew]⟩

theorem cMatch_iff (t s : String) (r : CustomerRow) :
    cMatch t s r = true ↔ r.tenantId = t ∧ r.shopifyId = s := by
  simp [cMatch]

theorem cMatch_customerUpdate (t s : String) (p : CustomerPayload) (r : CustomerRow)
    (h : cMatch t s r = true) : cMatch t s (customerUpdateOfPayload p r) = true := by
  simpa [cMatch, customerUpdateOfPayload] using h

theorem cMatch_create (t : String) (n : Nat) (p : CustomerPayload) :
    cMatch t p.id (customerCreateOfPayload t n p) = true := by
  simp [cMatch, customerCreateOfPayload]

theorem cMatch_orderCustomerUpdate (t s : String) (cd : OrderCustomerPayload)
    (r : CustomerRow) (h : cMatch t s r = true) :
    cMatch t s (orderCustomerUpdate cd r) = true := by
  simpa [cMatch, orderCustomerUpdate] using h

theorem cMatch_orderCustomerCreate (t : String) (n : Nat) (cd : OrderCustomerPayload) :
    cMatch t cd.id (orderCustomerCreate t n cd) = true := by
  simp [cMatch, orderCustomerCreate]

theorem oMatch_iff (t s : String) (r : OrderRow) :
    oMatch t s r = true ↔ r.tenantId = t ∧ r.shopifyId = s := by
  simp [oMatch]

theorem oMatch_orderUpdatePull (t s : String) (p : OrderPayload) (cid : Option Nat)
    (r : OrderRow) (h : oMatch t s r = true) :
    oMatch t s (orderUpdatePull p cid r) = true := by
  simpa [oMatch, orderUpdatePull] using h

theorem oMatch_orderCreateRow (t : String) (n : Nat) (p : OrderPayload)
    (cid : Option Nat) : oMatch t p.id (orderCreateRow t n p cid) = true := by
  simp [oMatch, orderCreateRow]

theorem syncCustomerRecord_customers (t : String) (st : Store) (p : CustomerPayload) :
    (syncCustomerRecord t st p).customers =
      (upsertFind (cMatch t p.id) (customerUpdateOfPayload p)
        (customerCreateOfPayload t st.nextId p) st.customers).1 := rfl

theorem replaceLineItems_customers (st : Store) (oid : Nat)
    (li : Option (List LineItemPayload)) :
    (replaceLineItems st oid li).customers = st.customers := by
  cases li <;> rfl

theorem replaceLineItems_orders (st : Store) (oid : Nat)
    (li : Option (List LineItemPayload)) :
    (replaceLineItems st oid li).orders = st.orders := by
  cases li <;> rfl

theorem replaceLineItems_filter (st : Store) (oid : Nat) (items : List LineItemPayload) :
    (replaceLineItems st oid (some items)).lineItems.filter
        (fun li => li.orderId == oid) = items.map (lineItemRowOfPayload oid) := by
  have h1 : (st.lineItems.filter (fun li => li.orderId != oid)).filter
      (fun li => li.orderId == oid) = [] := by
    rw [List.filter_filter]
    apply List.filter_eq_nil_iff.2
    intro a _
    by_cases h : a.orderId = oid <;> simp [h]
  have h2 : (items.map (lineItemRowOfPayload oid)).filter
      (fun li => li.orderId == oid) = items.map (lineItemRowOfPayload oid) := by
    apply List.filter_eq_self.2
    intro a ha
    obtain ⟨it, _, rfl⟩ := List.mem_map.1 ha
    simp [lineItemRowOfPayload]
  simp only [replaceLineItems, List.filter_append, h1, h2, List.nil_append]

theorem syncOrderRecordR_eq (t : String) (st : Store) (p : OrderPayload) :
    syncOrderRecordR t st p =
      (replaceLineItems
        (syncOrderUpsertStep t (syncOrderCustomerStep t st p).1 p
          (syncOrderCustomerStep t st p).2).1
        (syncOrderUpsertStep t (syncOrderCustomerStep t st p).1 p
          (syncOrderCustomerStep t st p).2).2
        p.line_items,
       (syncOrderUpsertStep t (syncOrderCustomerStep t st p).1 p
          (syncOrderCustomerStep t st p).2).2) := rfl

theorem pull_creates_embedded_customer (t : String) (st : Store) (p : OrderPayload)
    (cd : OrderCustomerPayload) (hp : p.customer = some cd) (hid : cd.id ≠ "") :
    ∃ r ∈ (syncOrderRecord t st p).customers, r.tenantId = t ∧ r.shopifyId = cd.id := by
  have hcs : (syncOrderCustomerStep t st p).1.customers =
      (upsertFind (cMatch t cd.id) (orderCustomerUpdate cd)
        (orderCustomerCreate t st.nextId cd) st.customers).1 := by
    simp [syncOrderCustomerStep, hp, hid]
  obtain ⟨r, hrmem, hrm⟩ := upsertFind_exists_match (cMatch t cd.id)
    (orderCustomerUpdate cd) (orderCustomerCreate t st.nextId cd) st.customers
    (cMatch_orderCustomerUpdate t cd.id cd) (cMatch_orderCustomerCreate t st.nextId cd)
  refine ⟨r, ?_, (cMatch_iff _ _ _).1 hrm⟩
  show r ∈ (syncOrderRecordR t st p).1.customers
  rw [syncOrderRecordR_eq, replaceLineItems_customers]
  show r ∈ (syncOrderCustomerStep t st p).1.customers
  rw [hcs]
  exact hrmem

theorem syncOrderRecordR_saved_order (t : String) (st : Store) (p : OrderPayload) :
    ∃ r ∈ (syncOrderRecordR t st p).1.orders,
      r.tenantId = t ∧ r.shopifyId = p.id ∧ r.localId = (syncOrderRecordR t st p).2 := by
  rw [syncOrderRecordR_eq]
  simp only [replaceLineItems_orders]
  obtain ⟨hmem, hm⟩ := upsertFind_saved_mem (oMatch t p.id)
    (orderUpdatePull p (syncOrderCustomerStep t st p).2)
    (orderCreateRow t (syncOrderCustomerStep t st p).1.nextId p
      (syncOrderCustomerStep t st p).2)
    (syncOrderCustomerStep t st p).1.orders
    (oMatch_orderUpdatePull t p.id p (syncOrderCustomerStep t st p).2)
    (oMatch_orderCreateRow t (syncOrderCustomerStep t st p).1.nextId p
      (syncOrderCustomerStep t st p).2)
  obtain ⟨ht, hs⟩ := (oMatch_iff _ _ _).1 hm
  exact ⟨_, hmem, ht, hs, rfl⟩

/-! ## Claim theorems -/

/-- C1: the webhook endpoint never verifies the HMAC signature it reads —
for an existing tenant and *any* value of the `x-shopify-hmac-sha256` header
(in particular any non-matching one), a `customers/create` delivery answers
HTTP 200 **and** the customer record is applied to storage, contradicting the
claim that a mismatched-signature record is not applied. -/
theorem webhook_bad_signature_still_applied (sig : String) :
    (webhookPost storeT1 "t1" sig (.customersCreate customerPayloadC1)).2 = 200 ∧
    (webhookPost storeT1 "t1" sig (.customersCreate customerPayloadC1)).1.customers =
      [customerCreateOfPayload "t1" storeT1.nextId customerPayloadC1] := by
  constructor <;> rfl

/-- C1 witness: the evaluation theorem applied at the concrete signature
`"invalid-signature"`. -/
theorem webhook_bad_signature_still_applied_witness :
    (webhookPost storeT1 "t1" "invalid-signature"
        (.customersCreate customerPayloadC1)).2 = 200 ∧
    (webhookPost storeT1 "t1" "invalid-signature"
        (.customersCreate customerPayloadC1)).1.customers =
      [customerCreateOfPayload "t1" storeT1.nextId customerPayloadC1] :=
  webhook_bad_signature_still_applied "invalid-signature"

/-- C2 counterexample: for the same order payload (embedded, not-yet-stored
customer `"c77"` plus one line item) applied to the same empty store, the
pull path and the webhook push path do **not** produce the same stored state:
their customer tables differ (pull creates the customer, push does not) and
their line-item tables differ (pull inserts the payload's items, push inserts
none). -/
theorem order_paths_differ_cex :
    (syncOrderRecord "t1" Store.empty orderPayloadC2).customers ≠
      (handleOrderWebhook "t1" Store.empty orderPayloadC2).customers ∧
    (syncOrderRecord "t1" Store.empty orderPayloadC2).lineItems ≠
      (handleOrderWebhook "t1" Store.empty orderPayloadC2).lineItems := by
  constructor <;> decide

/-- C2 (amended): the two order entry paths do not share one reconciliation
routine and do not produce the same stored state.  The webhook push path
leaves the customer and line-item tables untouched; the pull path
resolves/creates the embedded customer and stores exactly the payload's line
items for the saved order. -/
theorem order_paths_divergence :
    (∀ (t : String) (st : Store) (p : OrderPayload),
      (handleOrderWebhook t st p).customers = st.customers ∧
      (handleOrderWebhook t st p).lineItems = st.lineItems) ∧
    (∀ (t : String) (st : Store) (p : OrderPayload) (cd : OrderCustomerPayload),
      p.customer = some cd → cd.id ≠ "" →
      ∃ r ∈ (syncOrderRecord t st p).customers,
        r.tenantId = t ∧ r.shopifyId = cd.id) ∧
    (∀ (t : String) (st : Store) (p : OrderPayload) (items : List LineItemPayload),
      p.line_items = some items →
      (syncOrderRecord t st p).lineItems.filter
          (fun li => li.orderId == (syncOrderRecordR t st p).2)
        = items.map (lineItemRowOfPayload (syncOrderRecordR t st p).2)) := by
  refine ⟨fun t st p => ⟨rfl, rfl⟩, pull_creates_embedded_customer, ?_⟩
  intro t st p items hli
  show (syncOrderRecordR t st p).1.lineItems.filter _ = _
  conv_lhs => rw [syncOrderRecordR_eq]
  conv_rhs => rw [syncOrderRecordR_eq]
  rw [hli]
  exact replaceLineItems_filter _ _ _

/-- C2 witness: the amended theorem applied to the concrete payload
`orderPayloadC2` over the empty store. -/
theorem order_paths_divergence_witness :
    ((handleOrderWebhook "t1" Store.empty orderPayloadC2).customers =
        Store.empty.customers ∧
      (handleOrderWebhook "t1" Store.empty orderPayloadC2).lineItems =
        Store.empty.lineItems) ∧
    (∃ r ∈ (syncOrderRecord "t1" Store.empty orderPayloadC2).customers,
      r.tenantId = "t1" ∧ r.shopifyId = "c77") ∧
    ((syncOrderRecord "t1" Store.empty orderPayloadC2).lineItems.filter
        (fun li => li.orderId == (syncOrderRecordR "t1" Store.empty orderPayloadC2).2)
      = [(⟨"li1", none, some "Widget", 2, some 10, none, none⟩ : LineItemPayload)].map
          (lineItemRowOfPayload (syncOrderRecordR "t1" Store.empty orderPayloadC2).2)) :=
  ⟨order_paths_divergence.1 "t1" Store.empty orderPayloadC2,
   order_paths_divergence.2.1 "t1" Store.empty orderPayloadC2
     ⟨"c77", some "a@b.c", some "Ann", none, none, none⟩ rfl (by decide),
   order_paths_divergence.2.2 "t1" Store.empty orderPayloadC2 _ rfl⟩

/-- C3 counterexample: an 8-bucket series whose prior-window revenue sum is
zero.  `n = 8 > 7`, so the handler divides by the zero prior-window sum;
the JS result is non-finite (`Infinity`), modelled as `none` — the claim
that the result is a well-defined finite number for every series fails. -/
theorem weeklyGrowth_zero_prior_cex :
    weeklyGrowth [0, 0, 0, 0, 0, 0, 0, 100] = none := by
  norm_num [weeklyGrowth]

/-- C3 (amended): with at most 7 buckets `weeklyGrowth` is `0`; with more
than 7 buckets it is `(last-7 sum / prior-window sum − 1) × 100` where the
prior window is the up-to-7 buckets preceding the last 7 — and the division
is **unguarded**: a zero prior-window sum yields a non-finite value
(modelled `none`), not a finite number. -/
theorem weeklyGrowth_formula :
    (∀ xs : List ℚ, xs.length ≤ 7 → weeklyGrowth xs = some 0) ∧
    (∀ prior last7 : List ℚ, prior ≠ [] → prior.length ≤ 7 → last7.length = 7 →
      weeklyGrowth (prior ++ last7) =
        if prior.sum = 0 then none
        else some ((last7.sum / prior.sum - 1) * 100)) ∧
    (∀ pre prior last7 : List ℚ, prior.length = 7 → last7.length = 7 →
      weeklyGrowth (pre ++ (prior ++ last7)) =
        if prior.sum = 0 then none
        else some ((last7.sum / prior.sum - 1) * 100)) := by
  refine ⟨?_, ?_, ?_⟩
  · intro xs h
    rw [weeklyGrowth, if_neg (by omega)]
  · intro prior last7 hne hle h7
    have hpos : 0 < prior.length := List.length_pos.2 hne
    have hlen : (prior ++ last7).length = prior.length + 7 := by
      simp [List.length_append, h7]
    have e1 : (prior ++ last7).length - 7 = prior.length := by omega
    have e2 : (prior ++ last7).length - 14 = 0 := by omega
    rw [weeklyGrowth, if_pos (by omega)]
    rw [e1, e2, List.drop_left, List.take_left, List.drop_zero]
  · intro pre prior last7 hp h7
    rw [← List.append_assoc]
    have hlen : ((pre ++ prior) ++ last7).length = pre.length + 14 := by
      simp [List.length_append, hp, h7]
    have e1 : ((pre ++ prior) ++ last7).length - 7 = (pre ++ prior).length := by
      simp [List.length_append, hp]
      omega
    have e2 : ((pre ++ prior) ++ last7).length - 14 = pre.length := by omega
    rw [weeklyGrowth, if_pos (by omega)]
    rw [e1, e2, List.drop_left, List.take_left, List.drop_left]

/-- C3 witness: the amended formula applied at a 3-bucket series (result 0),
an 8-bucket series with nonzero 1-bucket prior window, and a 21-bucket
series with a full 7-bucket prior window. -/
theorem weeklyGrowth_formula_witness :
    weeklyGrowth [(1 : ℚ), 2, 3] = some 0 ∧
    weeklyGrowth ([(1 : ℚ)] ++ [0, 0, 0, 0, 0, 0, 14]) =
      (if ([(1 : ℚ)] : List ℚ).sum = 0 then none
       else some ((([(0 : ℚ), 0, 0, 0, 0, 0, 14] : List ℚ).sum /
         ([(1 : ℚ)] : List ℚ).sum - 1) * 100)) ∧
    weeklyGrowth ([(5 : ℚ), 5, 5, 5, 5, 5, 5] ++
        ([(1 : ℚ), 0, 0, 0, 0, 0, 0] ++ [(2 : ℚ), 0, 0, 0, 0, 0, 0])) =
      (if ([(1 : ℚ), 0, 0, 0, 0, 0, 0] : List ℚ).sum = 0 then none
       else some ((([(2 : ℚ), 0, 0, 0, 0, 0, 0] : List ℚ).sum /
         ([(1 : ℚ), 0, 0, 0, 0, 0, 0] : List ℚ).sum - 1) * 100)) :=
  ⟨weeklyGrowth_formula.1 [(1 : ℚ), 2, 3] (by decide),
   weeklyGrowth_formula.2.1 [(1 : ℚ)] [0, 0, 0, 0, 0, 0, 14]
     (by decide) (by decide) (by decide),
   weeklyGrowth_formula.2.2 [(5 : ℚ), 5, 5, 5, 5, 5, 5]
     [(1 : ℚ), 0, 0, 0, 0, 0, 0] [(2 : ℚ), 0, 0, 0, 0, 0, 0]
     (by decide) (by decide)⟩

set_option linter.unusedVariables false in
/-- C4: an order first reconciled (pull path) with line items `[A, B]` and
re-reconciled with payload line items `[C]` ends with exactly `[C]` stored
for that order: the saved order row carries the payload's natural key, and
the line items whose `orderId` is the saved order's id are precisely the
rows created from the second payload's `line_items`. -/
theorem line_item_replacement (st : Store) (t : String) (p1 p2 : OrderPayload)
    (L1 L2 : List LineItemPayload)
    (h1 : p1.line_items = some L1) (hid : p2.id = p1.id)
    (h2 : p2.line_items = some L2) :
    ∃ r ∈ (syncOrderRecordR t (syncOrderRecord t st p1) p2).1.orders,
      r.tenantId = t ∧ r.shopifyId = p2.id ∧
      r.localId = (syncOrderRecordR t (syncOrderRecord t st p1) p2).2 ∧
      (syncOrderRecordR t (syncOrderRecord t st p1) p2).1.lineItems.filter
          (fun li => li.orderId == (syncOrderRecordR t (syncOrderRecord t st p1) p2).2)
        = L2.map (lineItemRowOfPayload (syncOrderRecordR t (syncOrderRecord t st p1) p2).2) := by
  obtain ⟨r, hrmem, ht, hs, hl⟩ :=
    syncOrderRecordR_saved_order t (syncOrderRecord t st p1) p2
  refine ⟨r, hrmem, ht, hs, hl, ?_⟩
  conv_lhs => rw [syncOrderRecordR_eq]
  conv_rhs => rw [syncOrderRecordR_eq]
  rw [h2]
  exact replaceLineItems_filter _ _ _

/-- C4 witness: the replacement theorem applied to the concrete payloads
`orderPayloadAB` (`[A, B]`) then `orderPayloadC` (`[C]`) over the empty
store. -/
theorem line_item_replacement_witness :
    ∃ r ∈ (syncOrderRecordR "t1" (syncOrderRecord "t1" Store.empty orderPayloadAB)
        orderPayloadC).1.orders,
      r.tenantId = "t1" ∧ r.shopifyId = orderPayloadC.id ∧
      r.localId = (syncOrderRecordR "t1"
        (syncOrderRecord "t1" Store.empty orderPayloadAB) orderPayloadC).2 ∧
      (syncOrderRecordR "t1" (syncOrderRecord "t1" Store.empty orderPayloadAB)
          orderPayloadC).1.lineItems.filter
          (fun li => li.orderId == (syncOrderRecordR "t1"
            (syncOrderRecord "t1" Store.empty orderPayloadAB) orderPayloadC).2)
        = [(⟨"C", none, some "Item C", 1, some 5, none, none⟩ : LineItemPayload)].map
            (lineItemRowOfPayload (syncOrderRecordR "t1"
              (syncOrderRecord "t1" Store.empty orderPayloadAB) orderPayloadC).2) :=
  line_item_replacement Store.empty "t1" orderPayloadAB orderPayloadC
    [⟨"A", none, some "Item A", 1, some 10, none, none⟩,
     ⟨"B", none, some "Item B", 1, some 20, none, none⟩]
    [⟨"C", none, some "Item C", 1, some 5, none, none⟩] rfl rfl rfl

/-- C5: identity is the `(tenantId, external id)` pair — after two distinct
tenants each reconcile a customer with the same external id, two distinct
rows (one per tenant) are stored, and the tenant-scoped read returns only
rows of that tenant, never the other tenant's. -/
theorem tenant_isolation (st : Store) (t1 t2 : String) (p : CustomerPayload)
    (hne : t1 ≠ t2) :
    (∃ r1 r2,
      r1 ∈ (syncCustomerRecord t2 (syncCustomerRecord t1 st p) p).customers ∧
      r2 ∈ (syncCustomerRecord t2 (syncCustomerRecord t1 st p) p).customers ∧
      r1.tenantId = t1 ∧ r1.shopifyId = p.id ∧
      r2.tenantId = t2 ∧ r2.shopifyId = p.id ∧ r1 ≠ r2) ∧
    (∀ r ∈ customersForTenant (syncCustomerRecord t2 (syncCustomerRecord t1 st p) p) t1,
      r.tenantId = t1 ∧ r.tenantId ≠ t2) := by
  set st1 := syncCustomerRecord t1 st p with hst1
  set st2 := syncCustomerRecord t2 st1 p with hst2
  obtain ⟨r1, hr1mem, hr1m⟩ := upsertFind_exists_match (cMatch t1 p.id)
    (customerUpdateOfPayload p) (customerCreateOfPayload t1 st.nextId p) st.customers
    (cMatch_customerUpdate t1 p.id p) (cMatch_create t1 st.nextId p)
  rw [← syncCustomerRecord_customers] at hr1mem
  obtain ⟨hr1t, hr1s⟩ := (cMatch_iff _ _ _).1 hr1m
  have hr1not : cMatch t2 p.id r1 = false := by
    simp [cMatch, hr1t]
    intro h
    exact absurd h hne
  have hr1mem2 : r1 ∈ st2.customers := by
    rw [hst2, syncCustomerRecord_customers]
    exact mem_upsertFind_of_not_match _ _ _ _ r1 hr1mem hr1not
  obtain ⟨r2, hr2mem, hr2m⟩ := upsertFind_exists_match (cMatch t2 p.id)
    (customerUpdateOfPayload p) (customerCreateOfPayload t2 st1.nextId p) st1.customers
    (cMatch_customerUpdate t2 p.id p) (cMatch_create t2 st1.nextId p)
  rw [← syncCustomerRecord_customers] at hr2mem
  obtain ⟨hr2t, hr2s⟩ := (cMatch_iff _ _ _).1 hr2m
  constructor
  · refine ⟨r1, r2, hr1mem2, hr2mem, hr1t, hr1s, hr2t, hr2s, ?_⟩
    intro hEq
    rw [hEq] at hr1t
    exact hne (hr1t ▸ hr2t ▸ rfl)
  · intro r hr
    have hmem := List.mem_filter.1 hr
    have ht : r.tenantId = t1 := by simpa using hmem.2
    exact ⟨ht, by rw [ht]; exact hne⟩

/-- C5 witness: the isolation theorem applied to tenants `"A"` and `"B"`
both syncing external customer id `"123"` into the empty store. -/
theorem tenant_isolation_witness :
    (∃ r1 r2,
      r1 ∈ (syncCustomerRecord "B" (syncCustomerRecord "A" Store.empty
        customerPayload123) customerPayload123).customers ∧
      r2 ∈ (syncCustomerRecord "B" (syncCustomerRecord "A" Store.empty
        customerPayload123) customerPayload123).customers ∧
      r1.tenantId = "A" ∧ r1.shopifyId = customerPayload123.id ∧
      r2.tenantId = "B" ∧ r2.shopifyId = customerPayload123.id ∧ r1 ≠ r2) ∧
    (∀ r ∈ customersForTenant (syncCustomerRecord "B" (syncCustomerRecord "A"
        Store.empty customerPayload123) customerPayload123) "A",
      r.tenantId = "A" ∧ r.tenantId ≠ "B") :=
  tenant_isolation Store.empty "A" "B" customerPayload123 (by decide)

/-- C6: the RFM boundary cases — a customer whose last order was 5 days ago
with `ordersCount = 10` and `totalSpent = 1000` scores (R=5, F=5, M=5) and
is classified Champions; a customer with no orders gets
`daysSinceLastOrder = 999`, hence R=1, and with F=1, M=1 the decision list
falls through to Hibernating. -/
theorem rfm_boundary_classification :
    daysSinceLastOrder 86400000000 (some (86400000000 - 5 * 86400000)) = 5 ∧
    recencyScore 5 = 5 ∧ frequencyScore 10 = 5 ∧ monetaryScore 1000 = 5 ∧
    classifyCustomer 86400000000 (some (86400000000 - 5 * 86400000)) 10 1000 =
      Segment.champions ∧
    daysSinceLastOrder 86400000000 none = 999 ∧ recencyScore 999 = 1 ∧
    assignSegment 1 1 1 = Segment.hibernating ∧
    classifyCustomer 86400000000 none 1 0 = Segment.hibernating := by
  refine ⟨by decide, by decide, by decide, by decide, by decide, by decide,
    by decide, by decide, by decide⟩

/-- C7: fewer than 7 daily revenue buckets yields trend `insufficient_data`
and an empty forecast array, regardless of the buckets' revenue values. -/
theorem forecast_minimum_sample (xs : List ℚ) (h : xs.length < 7) :
    (revenueForecast xs).trend = Trend.insufficientData ∧
      (revenueForecast xs).forecastPredicted = [] := by
  simp [revenueForecast, h]

/-- C7 witness: the minimum-sample gate applied at a single huge bucket. -/
theorem forecast_minimum_sample_witness :
    (revenueForecast [1000000]).trend = Trend.insufficientData ∧
      (revenueForecast [1000000]).forecastPredicted = [] :=
  forecast_minimum_sample [1000000] (by decide)

/-- C8: on the perfectly linear 10-day series (day `i` revenue `100 + 10·i`)
the ordinary least-squares fit recovers slope exactly 10, every residual is
0, the residual variance is 0 — hence the standard deviation (the
non-negative square root of the variance) is 0 — and every one of the 7
forecast points carries confidence exactly 100. -/
theorem forecast_linear_regression_determinism :
    slope series10 = 10 ∧
    residuals series10 = List.replicate 10 0 ∧
    variance series10 = 0 ∧
    (∀ s : ℚ, 0 ≤ s → s * s = variance series10 →
      s = 0 ∧ forecastConfidences series10 s = List.replicate 7 100) := by
  have hvar : variance series10 = 0 := by
    norm_num [variance, residuals, intercept, slope, slopeNumerator, slopeDenominator,
      xMean, yMean, series10, List.enum, List.enumFrom]
  refine ⟨?_, ?_, hvar, ?_⟩
  · norm_num [slope, slopeNumerator, slopeDenominator, xMean, yMean, series10,
      List.enum, List.enumFrom]
  · norm_num [residuals, intercept, slope, slopeNumerator, slopeDenominator,
      xMean, yMean, series10, List.enum, List.enumFrom, List.replicate]
  · intro s hs hsq
    rw [hvar] at hsq
    have hzero : s = 0 := mul_self_eq_zero.1 hsq
    subst hzero
    refine ⟨rfl, ?_⟩
    norm_num [forecastConfidences, confidenceScore, yMean, series10, jsRound,
      List.range_succ, List.replicate, max_def, min_def]

/-- C8 witness: the regression theorem's quantified part applied at the
concrete standard deviation 0. -/
theorem forecast_linear_regression_determinism_witness :
    (0 : ℚ) ≤ 0 ∧ (0 : ℚ) * 0 = variance series10 ∧
      forecastConfidences series10 0 = List.replicate 7 100 :=
  ⟨le_refl 0,
   by rw [forecast_linear_regression_determinism.2.2.1]; norm_num,
   (forecast_linear_regression_determinism.2.2.2 0 (le_refl 0)
     (by rw [forecast_linear_regression_determinism.2.2.1]; norm_num)).2⟩

/-- C9: a sync run for a tenant with no stored access credential throws
`'Tenant not found or Shopify not connected'` before any write: the returned
store is the input store unchanged, so in particular the SyncLog table is
unchanged. -/
theorem sync_not_connected_no_log (st : Store) (tenantId : String)
    (types : List SyncType)
    (fetchedCustomers : Except String (List CustomerPayload))
    (fetchedOrders : Except String (List OrderPayload))
    (fetchedProducts : Except String (List ProductPayload)) (now : Int)
    (tenant : TenantRow)
    (hfind : st.tenants.find? (fun t => t.id == tenantId) = some tenant)
    (htok : tenant.accessToken = none) :
    syncTenantData st tenantId types fetchedCustomers fetchedOrders
        fetchedProducts now =
        (st, some "Tenant not found or Shopify not connected") ∧
      (syncTenantData st tenantId types fetchedCustomers fetchedOrders
        fetchedProducts now).1.syncLogs = st.syncLogs := by
  have h : syncTenantData st tenantId types fetchedCustomers fetchedOrders
      fetchedProducts now = (st, some "Tenant not found or Shopify not connected") := by
    simp [syncTenantData, hfind, htok]
  exact ⟨h, by rw [h]⟩

/-- C9 witness: the guard theorem applied to a store whose only tenant has
no access token. -/
theorem sync_not_connected_no_log_witness :
    syncTenantData storeNotConnected "t9" [SyncType.customers]
        (Except.ok []) (Except.ok []) (Except.ok []) 0 =
        (storeNotConnected, some "Tenant not found or Shopify not connected") ∧
      (syncTenantData storeNotConnected "t9" [SyncType.customers]
        (Except.ok []) (Except.ok []) (Except.ok []) 0).1.syncLogs =
        storeNotConnected.syncLogs :=
  sync_not_connected_no_log storeNotConnected "t9" [SyncType.customers]
    (Except.ok []) (Except.ok []) (Except.ok []) 0
    ⟨"t9", "Tenant Nine", "t9shop", none, true, none⟩ rfl rfl

/-- C10: every forecast point's `predictedRevenue` is non-negative — the
extrapolated value is clamped with `Math.max(0, ·)` before being returned,
so even a steeply declining fitted line never projects negative revenue. -/
theorem forecast_predicted_nonneg (xs : List ℚ) (q : ℚ)
    (hq : q ∈ (revenueForecast xs).forecastPredicted) : 0 ≤ q := by
  by_cases h : xs.length < 7
  · simp [revenueForecast, h] at hq
  · simp only [revenueForecast, if_neg h, forecastPredicted] at hq
    obtain ⟨k, _, rfl⟩ := List.mem_map.1 hq
    exact le_max_left 0 _

/-- C10 witness: the non-negativity theorem applied to the 7-bucket constant
series, whose forecast points all predict revenue 1. -/
theorem forecast_predicted_nonneg_witness :
    (1 : ℚ) ∈ (revenueForecast [1, 1, 1, 1, 1, 1, 1]).forecastPredicted ∧
      (0 : ℚ) ≤ 1 :=
  have hmem : (1 : ℚ) ∈ (revenueForecast [1, 1, 1, 1, 1, 1, 1]).forecastPredicted := by
    norm_num [revenueForecast, forecastPredicted, predictedAt, intercept, slope,
      slopeNumerator, slopeDenominator, xMean, yMean, List.enum, List.enumFrom,
      List.range_succ, round2, jsRound, max_def]
  ⟨hmem, forecast_predicted_nonneg [1, 1, 1, 1, 1, 1, 1] 1 hmem⟩

end ShopifyInsights
